import Mathlib

/-!
Shallow embedding of `src/src/widgets/framelesswidgetshelper.cpp`
(FramelessHelper, widgets backend).

Modelling conventions:
* `QPoint`, `QSize`, `QRect` carry `Int` coordinates exactly as Qt does
  (Qt stores a rect as x1/y1/x2/y2 with x2 = x + w - 1).
* Widget pointers are modelled by abstract identifiers (`WidgetRef`); null
  pointers by `Option`.  A `WidgetEnv` maps each identifier to the geometry
  data the code queries on a live widget (`geometry()`, `mapTo(window, (0,0))`,
  `size()`).
* The global `QHash<WId, WidgetsHelperData>` is modelled as a function
  `WId → Option WidgetsHelperData`; `getWindowDataMutable`'s insert-if-missing
  behaviour is `updateEntry`/`ensureEntry`.
* `QRegion` is modelled by its point-set semantics: the code only builds a
  region from one rectangle, subtracts rectangles from it, and queries point
  membership, so a region is a base rectangle plus a list of subtracted holes.
* Signal emission (`titleBarWidgetChanged`, a button's `clicked()`) is
  modelled by booleans / counters in the result.
* External `Utils::…`/`FramelessManager` calls are modelled as returned call
  records; they live outside this translation unit.
-/

/-- A Qt point (`QPoint`): integer x/y coordinates. -/
structure QPoint where
  x : Int
  y : Int
deriving DecidableEq, Repr

/-- A Qt size (`QSize`): integer width/height. -/
structure QSize where
  w : Int
  h : Int
deriving DecidableEq, Repr

/-- `QSize::isEmpty()`: true when width or height is smaller than 1. -/
def QSize.isEmpty (s : QSize) : Bool :=
  decide (s.w < 1) || decide (s.h < 1)

/-- A Qt rectangle (`QRect`), stored as top-left corner plus width/height.
Qt internally stores x1,y1,x2,y2 with x2 = x + w - 1; a width of 0 gives the
empty rectangle. -/
structure QRect where
  x : Int
  y : Int
  w : Int
  h : Int
deriving DecidableEq, Repr

/-- The default-constructed `QRect()`: x1 = y1 = 0, x2 = y2 = -1, i.e. origin
(0,0) with width and height 0. -/
instance : Inhabited QRect := ⟨⟨0, 0, 0, 0⟩⟩

/-- `QRect::contains(QPoint, proper = false)`.  Qt normalises an invalid
rectangle (x2 < x1 - 1, i.e. w < 0) by swapping the endpoints before the
span check; for w ≥ 0 this is the plain closed-interval check on
[x, x + w - 1]. -/
def QRect.containsPoint (r : QRect) (p : QPoint) : Bool :=
  let x1 := r.x
  let x2 := r.x + r.w - 1
  let lx := if x2 < x1 - 1 then x2 else x1
  let rx := if x2 < x1 - 1 then x1 else x2
  let y1 := r.y
  let y2 := r.y + r.h - 1
  let ty := if y2 < y1 - 1 then y2 else y1
  let by_ := if y2 < y1 - 1 then y1 else y2
  decide (lx ≤ p.x) && decide (p.x ≤ rx) && decide (ty ≤ p.y) && decide (p.y ≤ by_)

/-- Membership of a point in `QRegion(r)` for a rectangle `r`: the region of
an empty rectangle (w < 1 or h < 1) is empty, otherwise membership is the
closed-interval check.  (Unlike `QRect::contains`, no normalisation: an
invalid rect yields an empty region.) -/
def QRect.regionContains (r : QRect) (p : QPoint) : Bool :=
  decide (r.x ≤ p.x) && decide (p.x ≤ r.x + r.w - 1) &&
  decide (r.y ≤ p.y) && decide (p.y ≤ r.y + r.h - 1)

/-- A `QRegion` as the code uses it: one base rectangle with a list of
rectangles subtracted from it (point-set semantics). -/
structure QRegion where
  base : QRect
  holes : List QRect := []
deriving DecidableEq, Repr

/-- Conversion `QRegion(QRect)`. -/
def QRegion.ofRect (r : QRect) : QRegion := ⟨r, []⟩

/-- `region -= rect`. -/
def QRegion.subtractRect (rg : QRegion) (r : QRect) : QRegion :=
  ⟨rg.base, r :: rg.holes⟩

/-- `QRegion::contains(QPoint)`: in the base rectangle and in no hole. -/
def QRegion.containsPoint (rg : QRegion) (p : QPoint) : Bool :=
  rg.base.regionContains p && rg.holes.all fun h => !(h.regionContains p)

/-- `Global::SystemButtonType`. -/
inductive SystemButtonType where
  | Unknown
  | WindowIcon
  | Help
  | Minimize
  | Maximize
  | Restore
  | Close
deriving DecidableEq, Repr

/-- `Global::ButtonState`. -/
inductive ButtonState where
  | Unspecified
  | Hovered
  | Pressed
  | Clicked
deriving DecidableEq, Repr

/-- `QSizePolicy::Policy` values (the code only compares against `Fixed`). -/
inductive QSizePolicyValue where
  | Fixed
  | Minimum
  | Maximum
  | Preferred
  | Expanding
  | MinimumExpanding
  | Ignored
deriving DecidableEq, Repr

/-- A widget's `QSizePolicy` (horizontal, vertical). -/
structure QSizePolicy where
  horizontal : QSizePolicyValue
  vertical : QSizePolicyValue
deriving DecidableEq, Repr

/-- `QWIDGETSIZE_MAX`. -/
def QWIDGETSIZE_MAX : Int := 16777215

/-- The library's `kDefaultWindowSize` constant ({160, 160}), defined in the
core global header of this repository (not part of this translation unit). -/
def kDefaultWindowSize : QSize := ⟨160, 160⟩

/-- The state of the top-level `QWidget` window that the helper operates on,
restricted to the members this translation unit reads or writes.
`msFixedSizeDialogHint` is the `Qt::MSWindowsFixedSizeDialogHint` bit of
`windowFlags()`. -/
structure QWidgetWindow where
  winId : Nat
  size : QSize
  minimumSize : QSize
  maximumSize : QSize
  msFixedSizeDialogHint : Bool
  sizePolicy : QSizePolicy
  pos : QPoint
  visible : Bool
  minimized : Bool
  raised : Bool := false
  active : Bool := false
  /-- `devicePixelRatioF()` modelled as an integer scale (fractional device
  pixel ratios are real-valued and not modelled further; no claim reads the
  scaled value). -/
  devicePixelRatio : Int := 1
deriving DecidableEq, Repr

/-- `QWidget::setFixedSize(s)`: sets both the minimum and the maximum size to
`s` (and thereby pins the widget's size to `s`). -/
def QWidgetWindow.setFixedSize (win : QWidgetWindow) (s : QSize) : QWidgetWindow :=
  { win with minimumSize := s, maximumSize := s, size := s }

/-- `FramelessWidgetsHelperPrivate::isWindowFixedSize` for a resolved
(non-null) window: fixed iff the `MSWindowsFixedSizeDialogHint` flag is set,
or minimum and maximum size are non-empty and equal, or the size policy is
`(Fixed, Fixed)`. -/
def isWindowFixedSize (win : QWidgetWindow) : Bool :=
  if win.msFixedSizeDialogHint then
    true
  else if !win.minimumSize.isEmpty && !win.maximumSize.isEmpty
      && decide (win.minimumSize = win.maximumSize) then
    true
  else if decide (win.sizePolicy = ⟨QSizePolicyValue.Fixed, QSizePolicyValue.Fixed⟩) then
    true
  else
    false

/-- `FramelessWidgetsHelperPrivate::setWindowFixedSize` for a resolved
window.  (The Windows-only `Utils::setAeroSnappingEnabled` call is an
external native call and not part of the widget state.) -/
def setWindowFixedSize (win : QWidgetWindow) (value : Bool) : QWidgetWindow :=
  if isWindowFixedSize win = value then
    win
  else if value then
    let w1 := win.setFixedSize win.size
    { w1 with msFixedSizeDialogHint := true }
  else
    { win with
      msFixedSizeDialogHint := false
      minimumSize := kDefaultWindowSize
      maximumSize := ⟨QWIDGETSIZE_MAX, QWIDGETSIZE_MAX⟩ }

/-- Null-guarded entry point: `getWindow()` returning null makes
`isWindowFixedSize` return false. -/
def isWindowFixedSizeOp (window : Option QWidgetWindow) : Bool :=
  match window with
  | none => false
  | some win => isWindowFixedSize win

/-- Null-guarded entry point: `getWindow()` returning null makes
`setWindowFixedSize` a no-op. -/
def setWindowFixedSizeOp (window : Option QWidgetWindow) (value : Bool) :
    Option QWidgetWindow :=
  match window with
  | none => none
  | some win => some (setWindowFixedSize win value)

/-- A native window id (`WId`). -/
abbrev WId := Nat

/-- An abstract (non-null) widget pointer. -/
abbrev WidgetRef := Nat

/-- The geometry data the code reads from a live widget: `geometry()` (the
widget's rectangle in its parent's coordinates), `mapTo(window, QPoint(0,0))`
(the widget's origin in the top-level window's coordinates) and `size()`. -/
structure WidgetAttrs where
  geometry : QRect
  mapToWindowOrigin : QPoint
  size : QSize
deriving DecidableEq, Repr

/-- The live-widget environment backing the abstract widget pointers. -/
abbrev WidgetEnv := WidgetRef → WidgetAttrs

/-- `WidgetsHelperData`: the per-window record stored in the global hash. -/
structure WidgetsHelperData where
  attached : Bool := false
  /-- the `SystemParameters params` member, modelled as whether the callback
  set has been installed by `attachToWindow` -/
  paramsSet : Bool := false
  titleBarWidget : Option WidgetRef := none
  hitTestVisibleWidgets : List WidgetRef := []
  windowIconButton : Option WidgetRef := none
  contextHelpButton : Option WidgetRef := none
  minimizeButton : Option WidgetRef := none
  maximizeButton : Option WidgetRef := none
  closeButton : Option WidgetRef := none
deriving DecidableEq, Repr

instance : Inhabited WidgetsHelperData := ⟨{}⟩

/-- The global `QHash<WId, WidgetsHelperData>` of `g_widgetsHelper`. -/
abbrev HelperHash := WId → Option WidgetsHelperData

/-- `getWindowDataMutable`'s insert-if-missing step: ensure the hash has an
entry for `id` (a default-constructed record when absent). -/
def ensureEntry (hash : HelperHash) (id : WId) : HelperHash :=
  fun w => if w = id then some ((hash id).getD default) else hash w

/-- Mutation through the pointer returned by `getWindowDataMutable`: ensure
the entry for `id` exists, then rewrite it with `f`. -/
def updateEntry (hash : HelperHash) (id : WId) (f : WidgetsHelperData → WidgetsHelperData) :
    HelperHash :=
  fun w => if w = id then some (f ((hash id).getD default)) else hash w

/-- `FramelessWidgetsHelperPrivate::setTitleBarWidget`.  `wid` is the window
id of `getWindow()` (`none` when the window cannot be resolved, in which case
`getWindowDataMutable` returns null); `widget` is the argument pointer.
Returns the new hash and whether `titleBarWidgetChanged` was emitted. -/
def setTitleBarWidget (hash : HelperHash) (wid : Option WId) (widget : Option WidgetRef) :
    HelperHash × Bool :=
  match widget with
  | none => (hash, false)
  | some wg =>
    match wid with
    | none => (hash, false)
    | some id =>
      let data := (hash id).getD default
      if data.titleBarWidget = some wg then
        (ensureEntry hash id, false)
      else
        (updateEntry hash id (fun d => { d with titleBarWidget := some wg }), true)

/-- `FramelessWidgetsHelperPrivate::getTitleBarWidget` (via
`getWindowData()`, which returns a default record when the window is null or
the hash has no entry). -/
def getTitleBarWidget (hash : HelperHash) (wid : Option WId) : Option WidgetRef :=
  match wid with
  | none => none
  | some id => ((hash id).getD default).titleBarWidget

/-- `FramelessWidgetsHelperPrivate::setHitTestVisible`.  The function is
called with `visible` fixed to `true` at compile time: the removal branch is
compiled out, so the widget is appended when absent and nothing else ever
happens. -/
def setHitTestVisible (hash : HelperHash) (wid : Option WId) (widget : Option WidgetRef) :
    HelperHash :=
  match widget with
  | none => hash
  | some wg =>
    match wid with
    | none => hash
    | some id =>
      updateEntry hash id fun data =>
        if wg ∈ data.hitTestVisibleWidgets then data
        else { data with hitTestVisibleWidgets := data.hitTestVisibleWidgets ++ [wg] }

/-- The switch body of `setSystemButton`: store the widget in the field named
by the button type (`Maximize` and `Restore` share `maximizeButton`). -/
def setButtonField (data : WidgetsHelperData) (buttonType : SystemButtonType)
    (wg : WidgetRef) : WidgetsHelperData :=
  match buttonType with
  | SystemButtonType.Unknown => data
  | SystemButtonType.WindowIcon => { data with windowIconButton := some wg }
  | SystemButtonType.Help => { data with contextHelpButton := some wg }
  | SystemButtonType.Minimize => { data with minimizeButton := some wg }
  | SystemButtonType.Maximize => { data with maximizeButton := some wg }
  | SystemButtonType.Restore => { data with maximizeButton := some wg }
  | SystemButtonType.Close => { data with closeButton := some wg }

/-- `FramelessWidgetsHelperPrivate::setSystemButton`. -/
def setSystemButton (hash : HelperHash) (wid : Option WId) (widget : Option WidgetRef)
    (buttonType : SystemButtonType) : HelperHash :=
  match widget with
  | none => hash
  | some wg =>
    if buttonType = SystemButtonType.Unknown then hash
    else
      match wid with
      | none => hash
      | some id => updateEntry hash id fun data => setButtonField data buttonType wg

/-- `FramelessWidgetsHelperPrivate::attachToWindow`: with a resolvable
window, reads the entry's `attached` flag (materialising the entry), and when
not yet attached installs the `SystemParameters` callbacks and marks the
entry attached.  (The `FramelessManager::addWindow` call and the deferred
show/center timer are external to the hash state.) -/
def attachToWindow (hash : HelperHash) (wid : Option WId) : HelperHash :=
  match wid with
  | none => hash
  | some id =>
    let data := (hash id).getD default
    if data.attached then
      ensureEntry hash id
    else
      updateEntry hash id fun d => { d with paramsSet := true, attached := true }

/-- `FramelessWidgetsHelperPrivate::mapWidgetGeometryToScene`: null widget or
null window yields the default (empty) rectangle, otherwise the rectangle
whose origin is `widget->mapTo(window, QPoint(0,0))` and whose size is
`widget->size()`. -/
def mapWidgetGeometryToScene (env : WidgetEnv) (window : Option WId)
    (widget : Option WidgetRef) : QRect :=
  match widget with
  | none => default
  | some wg =>
    match window with
    | none => default
    | some _ =>
      ⟨(env wg).mapToWindowOrigin.x, (env wg).mapToWindowOrigin.y,
       (env wg).size.w, (env wg).size.h⟩

/-- One guarded test of `isInSystemButtons`: a stored button pointer is
non-null and its `geometry()` contains the point. -/
def buttonGeometryHit (env : WidgetEnv) (ob : Option WidgetRef) (pos : QPoint) : Bool :=
  match ob with
  | none => false
  | some b => (env b).geometry.containsPoint pos

/-- The body of `FramelessWidgetsHelperPrivate::isInSystemButtons` after the
null-pointer guard: `*button` starts as `Unknown`; the five stored buttons
are tested in order (window icon, help, minimize, maximize, close) and the
first hit is reported. -/
def isInSystemButtonsCore (env : WidgetEnv) (data : WidgetsHelperData) (pos : QPoint) :
    Bool × SystemButtonType :=
  if buttonGeometryHit env data.windowIconButton pos then
    (true, SystemButtonType.WindowIcon)
  else if buttonGeometryHit env data.contextHelpButton pos then
    (true, SystemButtonType.Help)
  else if buttonGeometryHit env data.minimizeButton pos then
    (true, SystemButtonType.Minimize)
  else if buttonGeometryHit env data.maximizeButton pos then
    (true, SystemButtonType.Maximize)
  else if buttonGeometryHit env data.closeButton pos then
    (true, SystemButtonType.Close)
  else
    (false, SystemButtonType.Unknown)

/-- `FramelessWidgetsHelperPrivate::isInSystemButtons` with the out-pointer
modelled as an optional incoming value (`none` = null pointer, which returns
false and leaves the pointee untouched): the result pairs the return value
with the final pointee value. -/
def isInSystemButtons (env : WidgetEnv) (data : WidgetsHelperData) (pos : QPoint)
    (button : Option SystemButtonType) : Bool × Option SystemButtonType :=
  match button with
  | none => (false, none)
  | some _ =>
    let r := isInSystemButtonsCore env data pos
    (r.fst, some r.snd)

/-- The loop body of `isInTitleBarDraggableArea` over the five stored system
buttons: subtract the scene-mapped geometry when the pointer is non-null. -/
def subtractButton (env : WidgetEnv) (window : Option WId) (rg : QRegion)
    (ob : Option WidgetRef) : QRegion :=
  match ob with
  | none => rg
  | some b => rg.subtractRect (mapWidgetGeometryToScene env window (some b))

/-- `FramelessWidgetsHelperPrivate::isInTitleBarDraggableArea`: no title bar
widget means false; otherwise start from the title bar's scene-mapped
rectangle, subtract every non-null system button's and every registered
hit-test-visible widget's scene-mapped rectangle, and test the point. -/
def isInTitleBarDraggableArea (env : WidgetEnv) (window : Option WId)
    (data : WidgetsHelperData) (pos : QPoint) : Bool :=
  match data.titleBarWidget with
  | none => false
  | some tb =>
    let region0 := QRegion.ofRect (mapWidgetGeometryToScene env window (some tb))
    let systemButtons : List (Option WidgetRef) :=
      [data.windowIconButton, data.contextHelpButton,
       data.minimizeButton, data.maximizeButton, data.closeButton]
    let region1 := systemButtons.foldl (subtractButton env window) region0
    let region2 := data.hitTestVisibleWidgets.foldl
      (fun rg w => rg.subtractRect (mapWidgetGeometryToScene env window (some w))) region1
    region2.containsPoint pos

/-- The state of a system-button widget as driven through its meta-object:
the `setPressed(bool)` / `setHovered(bool)` slots and the number of
`clicked()` emissions. -/
structure ButtonWidgetState where
  pressed : Bool := false
  hovered : Bool := false
  clickedCount : Nat := 0
deriving DecidableEq, Repr

/-- The `updateButtonState` lambda inside `setSystemButtonState`: drive the
pressed/hovered slots per `ButtonState`, and for `Clicked` also emit the
button's `clicked()` signal. -/
def updateButtonState (state : ButtonState) (btn : ButtonWidgetState) : ButtonWidgetState :=
  match state with
  | ButtonState.Unspecified => { btn with pressed := false, hovered := false }
  | ButtonState.Hovered => { btn with pressed := false, hovered := true }
  | ButtonState.Pressed => { btn with hovered := true, pressed := true }
  | ButtonState.Clicked =>
      { btn with pressed := false, hovered := true, clickedCount := btn.clickedCount + 1 }

/-- The switch of `setSystemButtonState` resolving the button type to the
stored widget pointer (`Maximize` and `Restore` both resolve to the stored
maximize button). -/
def resolveSystemButton (data : WidgetsHelperData) (button : SystemButtonType) :
    Option WidgetRef :=
  match button with
  | SystemButtonType.Unknown => none
  | SystemButtonType.WindowIcon => data.windowIconButton
  | SystemButtonType.Help => data.contextHelpButton
  | SystemButtonType.Minimize => data.minimizeButton
  | SystemButtonType.Maximize => data.maximizeButton
  | SystemButtonType.Restore => data.maximizeButton
  | SystemButtonType.Close => data.closeButton

/-- `FramelessWidgetsHelperPrivate::setSystemButtonState`.  `hasSlots w` is
the meta-object check that `w` exposes the `setPressed(bool)` and
`setHovered(bool)` slots and the `clicked()` signal; `states` is the state of
every button widget.  An `Unknown` button type, an unset button pointer or a
widget without the required slots leaves every widget untouched. -/
def setSystemButtonState (data : WidgetsHelperData) (hasSlots : WidgetRef → Bool)
    (states : WidgetRef → ButtonWidgetState) (button : SystemButtonType)
    (state : ButtonState) : WidgetRef → ButtonWidgetState :=
  if button = SystemButtonType.Unknown then
    states
  else
    match resolveSystemButton data button with
    | none => states
    | some wb =>
      if hasSlots wb then
        fun x => if x = wb then updateButtonState state (states x) else states x
      else
        states

/-- `Qt::Edges` restricted to the four edge bits. -/
structure QtEdges where
  left : Bool := false
  top : Bool := false
  right : Bool := false
  bottom : Bool := false
deriving DecidableEq, Repr

/-- The empty `Qt::Edges{}` value. -/
def noEdges : QtEdges := {}

/-- `FramelessWidgetsHelperPrivate::moveWindowToDesktopCenter`: with a null
window nothing happens; otherwise the external
`Utils::moveWindowToDesktopCenter` call is issued for the window (recorded by
its id; the move itself happens outside this translation unit). -/
def moveWindowToDesktopCenter (window : Option QWidgetWindow) : Option Nat :=
  match window with
  | none => none
  | some win => some win.winId

/-- `FramelessWidgetsHelperPrivate::bringWindowToFront`: with a null window
nothing happens; otherwise show the window if hidden, clear the minimized
state if minimized, raise it and activate it. -/
def bringWindowToFront (window : Option QWidgetWindow) : Option QWidgetWindow :=
  match window with
  | none => none
  | some win =>
    let w1 := if !win.visible then { win with visible := true } else win
    let w2 := if w1.minimized then { w1 with minimized := false } else w1
    some { w2 with raised := true, active := true }

/-- `FramelessWidgetsHelperPrivate::showSystemMenu` (Windows branch, the only
one with a body): with a null window nothing happens; otherwise the external
`Utils::showSystemMenu` call is issued with the window id and the global
position scaled by the device pixel ratio. -/
def showSystemMenu (window : Option QWidgetWindow) (pos : QPoint) : Option (Nat × QPoint) :=
  match window with
  | none => none
  | some win =>
    let globalPos : QPoint := ⟨win.pos.x + pos.x, win.pos.y + pos.y⟩
    let nativePos : QPoint :=
      ⟨globalPos.x * win.devicePixelRatio, globalPos.y * win.devicePixelRatio⟩
    some (win.winId, nativePos)

/-- `FramelessWidgetsHelperPrivate::windowStartSystemMove2`: with a null
window nothing happens; otherwise the external `Utils::startSystemMove` call
is issued for the window's handle and the position. -/
def windowStartSystemMove2 (window : Option QWidgetWindow) (pos : QPoint) :
    Option (Nat × QPoint) :=
  match window with
  | none => none
  | some win => some (win.winId, pos)

/-- `FramelessWidgetsHelperPrivate::windowStartSystemResize2`: with a null
window or an empty edge set nothing happens; otherwise the external
`Utils::startSystemResize` call is issued. -/
def windowStartSystemResize2 (window : Option QWidgetWindow) (edges : QtEdges)
    (pos : QPoint) : Option (Nat × QtEdges × QPoint) :=
  match window with
  | none => none
  | some win =>
    if edges = noEdges then none
    else some (win.winId, edges, pos)

/-- A window whose size policy is `(Fixed, Fixed)` while no other
fixed-size indicator is set. -/
def fixedPolicyWindow : QWidgetWindow :=
  { winId := 1
    size := ⟨300, 200⟩
    minimumSize := ⟨0, 0⟩
    maximumSize := ⟨QWIDGETSIZE_MAX, QWIDGETSIZE_MAX⟩
    msFixedSizeDialogHint := false
    sizePolicy := ⟨QSizePolicyValue.Fixed, QSizePolicyValue.Fixed⟩
    pos := ⟨0, 0⟩
    visible := true
    minimized := false }

/-- A window with an ordinary (`Preferred`) size policy. -/
def preferredPolicyWindow : QWidgetWindow :=
  { winId := 2
    size := ⟨640, 480⟩
    minimumSize := ⟨0, 0⟩
    maximumSize := ⟨QWIDGETSIZE_MAX, QWIDGETSIZE_MAX⟩
    msFixedSizeDialogHint := false
    sizePolicy := ⟨QSizePolicyValue.Preferred, QSizePolicyValue.Preferred⟩
    pos := ⟨0, 0⟩
    visible := true
    minimized := false }

/-- Claim C3, counterexample: on a window whose size policy is
`(Fixed, Fixed)`, `setWindowFixedSize(false)` does not make
`isWindowFixedSize()` false — the size policy is never reset, so the policy
test still reports the window as fixed-size. -/
theorem setWindowFixedSize_false_no_roundtrip :
    ¬ (isWindowFixedSize (setWindowFixedSize fixedPolicyWindow false) = false) := by
  decide

/-- Claim C3 (amended): `setWindowFixedSize(true)` always makes
`isWindowFixedSize()` true; `setWindowFixedSize(false)` makes it false
provided the window's size policy is not `(Fixed, Fixed)` (the toggle never
modifies the size policy, so a fixed-by-policy window stays fixed). -/
theorem setWindowFixedSize_roundtrip :
    ∀ win : QWidgetWindow,
      isWindowFixedSize (setWindowFixedSize win true) = true ∧
      (win.sizePolicy ≠ ⟨QSizePolicyValue.Fixed, QSizePolicyValue.Fixed⟩ →
        isWindowFixedSize (setWindowFixedSize win false) = false) := by
  intro win
  constructor
  · unfold setWindowFixedSize
    split
    · assumption
    · simp [isWindowFixedSize, QWidgetWindow.setFixedSize]
  · intro hpol
    unfold setWindowFixedSize
    split
    · assumption
    · simp [isWindowFixedSize, QSize.isEmpty, kDefaultWindowSize, QWIDGETSIZE_MAX, hpol]

/-- Witness for the amended claim C3 at a concrete window. -/
theorem setWindowFixedSize_roundtrip_witness :
    isWindowFixedSize (setWindowFixedSize preferredPolicyWindow true) = true ∧
    isWindowFixedSize (setWindowFixedSize preferredPolicyWindow false) = false :=
  ⟨(setWindowFixedSize_roundtrip preferredPolicyWindow).1,
   (setWindowFixedSize_roundtrip preferredPolicyWindow).2 (by decide)⟩

/-- Claim C6: `mapWidgetGeometryToScene` is a direct adapter — for a non-null
widget with a resolvable window it returns the rectangle whose origin is the
widget's `(0,0)` mapped into the window's coordinate system and whose size is
the widget's size; with a null widget or null window it returns the default
(empty) rectangle. -/
theorem mapWidgetGeometryToScene_spec :
    ∀ (env : WidgetEnv) (id : WId) (wg : WidgetRef) (w : Option WId),
      mapWidgetGeometryToScene env (some id) (some wg)
        = ⟨(env wg).mapToWindowOrigin.x, (env wg).mapToWindowOrigin.y,
           (env wg).size.w, (env wg).size.h⟩
      ∧ mapWidgetGeometryToScene env w none = default
      ∧ mapWidgetGeometryToScene env none (some wg) = default := by
  intro env id wg w
  refine ⟨rfl, ?_, rfl⟩
  cases w <;> rfl

/-- Scene-rectangle membership test for an optional (possibly null) widget
pointer: a null pointer hits nothing. -/
def optionSceneContains (env : WidgetEnv) (window : Option WId) (ob : Option WidgetRef)
    (pos : QPoint) : Bool :=
  match ob with
  | none => false
  | some b => (mapWidgetGeometryToScene env window (some b)).regionContains pos

theorem QRegion.containsPoint_subtractRect (rg : QRegion) (r : QRect) (p : QPoint) :
    (rg.subtractRect r).containsPoint p = (rg.containsPoint p && !(r.regionContains p)) := by
  simp [QRegion.containsPoint, QRegion.subtractRect, Bool.and_assoc, Bool.and_comm,
    Bool.and_left_comm]

theorem subtractButton_containsPoint (env : WidgetEnv) (window : Option WId) (rg : QRegion)
    (ob : Option WidgetRef) (p : QPoint) :
    (subtractButton env window rg ob).containsPoint p
      = (rg.containsPoint p && !(optionSceneContains env window ob p)) := by
  cases ob <;> simp [subtractButton, optionSceneContains, QRegion.containsPoint_subtractRect]

theorem foldl_subtractButton_containsPoint (env : WidgetEnv) (window : Option WId)
    (l : List (Option WidgetRef)) (rg : QRegion) (p : QPoint) :
    ((l.foldl (subtractButton env window) rg).containsPoint p)
      = (rg.containsPoint p && l.all fun ob => !(optionSceneContains env window ob p)) := by
  induction l generalizing rg with
  | nil => simp
  | cons hd tl ih =>
    simp [List.foldl_cons, ih, subtractButton_containsPoint, Bool.and_assoc]

theorem foldl_subtractWidget_containsPoint (env : WidgetEnv) (window : Option WId)
    (l : List WidgetRef) (rg : QRegion) (p : QPoint) :
    ((l.foldl (fun rg w => rg.subtractRect (mapWidgetGeometryToScene env window (some w)))
        rg).containsPoint p)
      = (rg.containsPoint p
          && l.all fun w => !((mapWidgetGeometryToScene env window (some w)).regionContains p)) := by
  induction l generalizing rg with
  | nil => simp
  | cons hd tl ih =>
    simp [List.foldl_cons, ih, QRegion.containsPoint_subtractRect, Bool.and_assoc]

theorem optionSceneContains_eq_false (env : WidgetEnv) (window : Option WId)
    (ob : Option WidgetRef) (pos : QPoint) :
    optionSceneContains env window ob pos = false ↔
      ∀ b, ob = some b →
        (mapWidgetGeometryToScene env window (some b)).regionContains pos = false := by
  cases ob <;> simp [optionSceneContains]

/-- Claim C1: `isInTitleBarDraggableArea(pos)` is true exactly when a title
bar widget is registered, `pos` lies in its scene-mapped rectangle, and `pos`
lies in the scene-mapped rectangle of no registered non-null system button
(window icon, context help, minimize, maximize, close) and of no registered
hit-test-visible widget. -/
theorem isInTitleBarDraggableArea_spec :
    ∀ (env : WidgetEnv) (window : Option WId) (data : WidgetsHelperData) (pos : QPoint),
      isInTitleBarDraggableArea env window data pos = true ↔
        ∃ tb, data.titleBarWidget = some tb
          ∧ (mapWidgetGeometryToScene env window (some tb)).regionContains pos = true
          ∧ (∀ b ∈ ([data.windowIconButton, data.contextHelpButton, data.minimizeButton,
                      data.maximizeButton, data.closeButton] :
                      List (Option WidgetRef)).filterMap id,
              (mapWidgetGeometryToScene env window (some b)).regionContains pos = false)
          ∧ (∀ w ∈ data.hitTestVisibleWidgets,
              (mapWidgetGeometryToScene env window (some w)).regionContains pos = false) := by
  intro env window data pos
  cases htb : data.titleBarWidget with
  | none => simp [isInTitleBarDraggableArea, htb]
  | some tb =>
    simp only [isInTitleBarDraggableArea, htb]
    rw [foldl_subtractWidget_containsPoint, foldl_subtractButton_containsPoint]
    simp only [QRegion.ofRect, QRegion.containsPoint, List.all_nil, Bool.and_true,
      Bool.and_eq_true, List.all_cons, Bool.not_eq_true', List.all_eq_true,
      List.mem_filterMap, id_eq, Option.some.injEq]
    constructor
    · rintro ⟨⟨hbase, h1, h2, h3, h4, h5⟩, hht⟩
      refine ⟨tb, rfl, hbase, ?_, hht⟩
      rintro b ⟨ob, hmem, hob⟩
      have key : optionSceneContains env window ob pos = false := by
        simp only [List.mem_cons, List.not_mem_nil, or_false] at hmem
        rcases hmem with h | h | h | h | h
        all_goals rw [h]
        · exact h1
        · exact h2
        · exact h3
        · exact h4
        · exact h5
      exact (optionSceneContains_eq_false env window ob pos).mp key b hob
    · rintro ⟨tb', htb', hbase, hbtn, hht⟩
      subst htb'
      refine ⟨⟨hbase, ?_, ?_, ?_, ?_, ?_⟩, hht⟩
      all_goals
        rw [optionSceneContains_eq_false]
        intro b hb
        exact hbtn b ⟨_, by simp, hb⟩

/-- Per-window data with a stored maximize button. -/
def c2Data : WidgetsHelperData := { maximizeButton := some 7 }

/-- Claim C2: for a registered button widget exposing the
`setPressed(bool)`/`setHovered(bool)` slots and the `clicked()` signal,
`setSystemButtonState` drives exactly the native mapping — `Unspecified` ⇒
pressed=false, hovered=false; `Hovered` ⇒ pressed=false, hovered=true;
`Pressed` ⇒ hovered=true, pressed=true; `Clicked` ⇒ pressed=false,
hovered=true plus one `clicked()` emission — and the `Maximize` and `Restore`
button types both resolve to the stored maximize button. -/
theorem setSystemButtonState_spec :
    ∀ (data : WidgetsHelperData) (hasSlots : WidgetRef → Bool)
      (states : WidgetRef → ButtonWidgetState) (bt : SystemButtonType)
      (st : ButtonState) (wb : WidgetRef) (b : ButtonWidgetState),
      (resolveSystemButton data SystemButtonType.Maximize = data.maximizeButton
        ∧ resolveSystemButton data SystemButtonType.Restore = data.maximizeButton)
      ∧ ((updateButtonState ButtonState.Unspecified b).pressed = false
          ∧ (updateButtonState ButtonState.Unspecified b).hovered = false
          ∧ (updateButtonState ButtonState.Unspecified b).clickedCount = b.clickedCount)
      ∧ ((updateButtonState ButtonState.Hovered b).pressed = false
          ∧ (updateButtonState ButtonState.Hovered b).hovered = true
          ∧ (updateButtonState ButtonState.Hovered b).clickedCount = b.clickedCount)
      ∧ ((updateButtonState ButtonState.Pressed b).pressed = true
          ∧ (updateButtonState ButtonState.Pressed b).hovered = true
          ∧ (updateButtonState ButtonState.Pressed b).clickedCount = b.clickedCount)
      ∧ ((updateButtonState ButtonState.Clicked b).pressed = false
          ∧ (updateButtonState ButtonState.Clicked b).hovered = true
          ∧ (updateButtonState ButtonState.Clicked b).clickedCount = b.clickedCount + 1)
      ∧ (bt ≠ SystemButtonType.Unknown → resolveSystemButton data bt = some wb →
          hasSlots wb = true →
          setSystemButtonState data hasSlots states bt st wb
            = updateButtonState st (states wb)) := by
  intro data hasSlots states bt st wb b
  refine ⟨⟨rfl, rfl⟩, ⟨rfl, rfl, rfl⟩, ⟨rfl, rfl, rfl⟩, ⟨rfl, rfl, rfl⟩, ⟨rfl, rfl, rfl⟩, ?_⟩
  intro hbt hres hslots
  simp [setSystemButtonState, hbt, hres, hslots]

/-- Witness for claim C2: the `Restore` type drives the stored maximize
button through the `Clicked` mapping. -/
theorem setSystemButtonState_spec_witness :
    setSystemButtonState c2Data (fun _ => true) (fun _ => {}) SystemButtonType.Restore
        ButtonState.Clicked 7
      = updateButtonState ButtonState.Clicked ((fun _ => ({} : ButtonWidgetState)) 7) :=
  ((setSystemButtonState_spec c2Data (fun _ => true) (fun _ => {}) SystemButtonType.Restore
      ButtonState.Clicked 7 {}).2.2.2.2.2) (by decide) (by rfl) (by rfl)

/-- Claim C8: `setHitTestVisible` with a non-null widget leaves the window's
hit-test-visible list unchanged when the widget is already present, appends
it exactly once otherwise, preserves duplicate-freeness, and only ever grows
the list (the removal branch is compiled out). -/
theorem setHitTestVisible_spec :
    ∀ (hash : HelperHash) (id : WId) (wg : WidgetRef),
      (wg ∈ ((hash id).getD default).hitTestVisibleWidgets →
        ((setHitTestVisible hash (some id) (some wg) id).getD default).hitTestVisibleWidgets
          = ((hash id).getD default).hitTestVisibleWidgets)
      ∧ (wg ∉ ((hash id).getD default).hitTestVisibleWidgets →
        ((setHitTestVisible hash (some id) (some wg) id).getD default).hitTestVisibleWidgets
          = ((hash id).getD default).hitTestVisibleWidgets ++ [wg])
      ∧ (((hash id).getD default).hitTestVisibleWidgets.Nodup →
        ((setHitTestVisible hash (some id) (some wg) id).getD
            default).hitTestVisibleWidgets.Nodup)
      ∧ (((setHitTestVisible hash (some id) (some wg) id).getD default).hitTestVisibleWidgets
            = ((hash id).getD default).hitTestVisibleWidgets
        ∨ ((setHitTestVisible hash (some id) (some wg) id).getD default).hitTestVisibleWidgets
            = ((hash id).getD default).hitTestVisibleWidgets ++ [wg]) := by
  intro hash id wg
  by_cases hmem : wg ∈ ((hash id).getD default).hitTestVisibleWidgets
  · have hl : (setHitTestVisible hash (some id) (some wg) id).getD default
        = (hash id).getD default := by
      simp [setHitTestVisible, updateEntry, hmem]
    refine ⟨fun _ => by rw [hl], fun h => absurd hmem h, fun h => by rw [hl]; exact h,
      Or.inl (by rw [hl])⟩
  · have hl : (setHitTestVisible hash (some id) (some wg) id).getD default
        = { (hash id).getD default with
            hitTestVisibleWidgets := ((hash id).getD default).hitTestVisibleWidgets ++ [wg] } := by
      simp [setHitTestVisible, updateEntry, hmem]
    refine ⟨fun h => absurd h hmem, fun _ => by rw [hl], fun h => ?_, Or.inr (by rw [hl])⟩
    rw [hl]
    refine List.nodup_append.mpr ⟨h, List.nodup_singleton wg, ?_⟩
    intro a ha hb
    simp only [List.mem_singleton] at hb
    subst hb
    exact hmem ha

/-- Witness for claim C8 on the empty hash: the widget is absent, so it is
appended once and the result is duplicate-free. -/
theorem setHitTestVisible_spec_witness :
    ((setHitTestVisible (fun _ => none) (some 1) (some 5) 1).getD default).hitTestVisibleWidgets
        = (((fun _ => none : HelperHash) 1).getD default).hitTestVisibleWidgets ++ [5]
    ∧ ((setHitTestVisible (fun _ => none) (some 1) (some 5) 1).getD
        default).hitTestVisibleWidgets.Nodup :=
  ⟨(setHitTestVisible_spec (fun _ => none) 1 5).2.1 (by decide),
   (setHitTestVisible_spec (fun _ => none) 1 5).2.2.1 (by decide)⟩

/-- Claim C9: `isInSystemButtons` always overwrites the out-parameter
(starting from `Unknown`), reports `false` with `Unknown` when no registered
button's geometry contains the point, and on overlap reports the first match
in the order window icon, help, minimize, maximize, close. -/
theorem isInSystemButtons_spec :
    ∀ (env : WidgetEnv) (data : WidgetsHelperData) (pos : QPoint) (b0 : SystemButtonType),
      (isInSystemButtons env data pos (some b0)
          = ((isInSystemButtonsCore env data pos).fst,
             some (isInSystemButtonsCore env data pos).snd))
      ∧ ((isInSystemButtonsCore env data pos).fst = false →
          (isInSystemButtonsCore env data pos).snd = SystemButtonType.Unknown)
      ∧ (buttonGeometryHit env data.windowIconButton pos = false →
          buttonGeometryHit env data.contextHelpButton pos = false →
          buttonGeometryHit env data.minimizeButton pos = false →
          buttonGeometryHit env data.maximizeButton pos = false →
          buttonGeometryHit env data.closeButton pos = false →
          isInSystemButtonsCore env data pos = (false, SystemButtonType.Unknown))
      ∧ (buttonGeometryHit env data.windowIconButton pos = true →
          isInSystemButtonsCore env data pos = (true, SystemButtonType.WindowIcon))
      ∧ (buttonGeometryHit env data.windowIconButton pos = false →
          buttonGeometryHit env data.contextHelpButton pos = true →
          isInSystemButtonsCore env data pos = (true, SystemButtonType.Help))
      ∧ (buttonGeometryHit env data.windowIconButton pos = false →
          buttonGeometryHit env data.contextHelpButton pos = false →
          buttonGeometryHit env data.minimizeButton pos = true →
          isInSystemButtonsCore env data pos = (true, SystemButtonType.Minimize))
      ∧ (buttonGeometryHit env data.windowIconButton pos = false →
          buttonGeometryHit env data.contextHelpButton pos = false →
          buttonGeometryHit env data.minimizeButton pos = false →
          buttonGeometryHit env data.maximizeButton pos = true →
          isInSystemButtonsCore env data pos = (true, SystemButtonType.Maximize))
      ∧ (buttonGeometryHit env data.windowIconButton pos = false →
          buttonGeometryHit env data.contextHelpButton pos = false →
          buttonGeometryHit env data.minimizeButton pos = false →
          buttonGeometryHit env data.maximizeButton pos = false →
          buttonGeometryHit env data.closeButton pos = true →
          isInSystemButtonsCore env data pos = (true, SystemButtonType.Close)) := by
  intro env data pos b0
  refine ⟨rfl, ?_, ?_, ?_, ?_, ?_, ?_, ?_⟩
  · intro h
    unfold isInSystemButtonsCore at h ⊢
    split_ifs at h ⊢
    simp_all
  · intro h1 h2 h3 h4 h5
    simp [isInSystemButtonsCore, h1, h2, h3, h4, h5]
  · intro h1
    simp [isInSystemButtonsCore, h1]
  · intro h1 h2
    simp [isInSystemButtonsCore, h1, h2]
  · intro h1 h2 h3
    simp [isInSystemButtonsCore, h1, h2, h3]
  · intro h1 h2 h3 h4
    simp [isInSystemButtonsCore, h1, h2, h3, h4]
  · intro h1 h2 h3 h4 h5
    simp [isInSystemButtonsCore, h1, h2, h3, h4, h5]

/-- A widget environment where every widget occupies the square (0,0)–(10,10). -/
def squareEnv : WidgetEnv :=
  fun _ => { geometry := ⟨0, 0, 10, 10⟩, mapToWindowOrigin := ⟨0, 0⟩, size := ⟨10, 10⟩ }

/-- Per-window data with only a close button registered. -/
def closeOnlyData : WidgetsHelperData := { closeButton := some 3 }

/-- Witness for claim C9: with only a close button registered and the point
inside it, the reported type is `Close`. -/
theorem isInSystemButtons_spec_witness :
    isInSystemButtonsCore squareEnv closeOnlyData ⟨5, 5⟩ = (true, SystemButtonType.Close) :=
  (isInSystemButtons_spec squareEnv closeOnlyData ⟨5, 5⟩ SystemButtonType.Unknown).2.2.2.2.2.2.2
    (by decide) (by decide) (by decide) (by decide) (by decide)

/-- Claim C10: for a non-null widget and a resolvable window,
`setTitleBarWidget` emits `titleBarWidgetChanged` exactly when the stored
value changes: an equal stored widget leaves the hash untouched and emits
nothing; otherwise the widget is stored, the signal is emitted once, and
`titleBarWidget()` afterwards returns it. -/
theorem setTitleBarWidget_spec :
    ∀ (hash : HelperHash) (id : WId) (wg : WidgetRef),
      (((hash id).getD default).titleBarWidget = some wg →
        (∀ w, (setTitleBarWidget hash (some id) (some wg)).fst w = hash w)
        ∧ (setTitleBarWidget hash (some id) (some wg)).snd = false)
      ∧ (((hash id).getD default).titleBarWidget ≠ some wg →
        (setTitleBarWidget hash (some id) (some wg)).snd = true
        ∧ getTitleBarWidget (setTitleBarWidget hash (some id) (some wg)).fst (some id)
            = some wg) := by
  intro hash id wg
  constructor
  · intro heq
    constructor
    · intro w
      simp only [setTitleBarWidget, heq, if_true, ensureEntry]
      by_cases hw : w = id
      · subst hw
        cases hh : hash w with
        | none =>
          rw [hh] at heq
          simp at heq
        | some d => simp [hh]
      · simp [hw]
    · simp [setTitleBarWidget, heq]
  · intro hne
    constructor
    · simp [setTitleBarWidget, hne]
    · simp [setTitleBarWidget, getTitleBarWidget, hne, updateEntry]

/-- Witness for claim C10 on the empty hash: no stored title bar widget, so
the signal is emitted and the widget is stored. -/
theorem setTitleBarWidget_spec_witness :
    (setTitleBarWidget (fun _ => none) (some 1) (some 5)).snd = true
    ∧ getTitleBarWidget (setTitleBarWidget (fun _ => none) (some 1) (some 5)).fst (some 1)
        = some 5 :=
  (setTitleBarWidget_spec (fun _ => none) 1 5).2 (by decide)

theorem ensureEntry_ne (hash : HelperHash) (id w : WId) (h : w ≠ id) :
    ensureEntry hash id w = hash w := by
  simp [ensureEntry, h]

theorem updateEntry_ne (hash : HelperHash) (id : WId) (f : WidgetsHelperData → WidgetsHelperData)
    (w : WId) (h : w ≠ id) : updateEntry hash id f w = hash w := by
  simp [updateEntry, h]

/-- Claim C5: every mutating helper operation for the window with id `id`
(`setTitleBarWidget`, `setSystemButton`, `setHitTestVisible`,
`attachToWindow`) rewrites only that window's entry of the global hash: the
entry of every other window id is unchanged. -/
theorem helperHash_frame :
    ∀ (hash : HelperHash) (id w : WId) (wg : WidgetRef) (bt : SystemButtonType),
      w ≠ id →
        (setTitleBarWidget hash (some id) (some wg)).fst w = hash w
        ∧ setSystemButton hash (some id) (some wg) bt w = hash w
        ∧ setHitTestVisible hash (some id) (some wg) w = hash w
        ∧ attachToWindow hash (some id) w = hash w := by
  intro hash id w wg bt hne
  refine ⟨?_, ?_, ?_, ?_⟩
  · by_cases hcase : ((hash id).getD default).titleBarWidget = some wg
    · simp [setTitleBarWidget, hcase, ensureEntry_ne hash id w hne]
    · simp [setTitleBarWidget, hcase, updateEntry_ne hash id _ w hne]
  · by_cases hbt : bt = SystemButtonType.Unknown
    · simp [setSystemButton, hbt]
    · simp [setSystemButton, hbt, updateEntry_ne hash id _ w hne]
  · simp [setHitTestVisible, updateEntry_ne hash id _ w hne]
  · by_cases hat : ((hash id).getD default).attached
    · simp [attachToWindow, hat, ensureEntry_ne hash id w hne]
    · simp [attachToWindow, hat, updateEntry_ne hash id _ w hne]

/-- Witness for claim C5 on the empty hash: mutating window 1 leaves window
2's entry absent. -/
theorem helperHash_frame_witness :
    (setTitleBarWidget (fun _ => none) (some 1) (some 5)).fst 2
        = (fun _ => none : HelperHash) 2
    ∧ setSystemButton (fun _ => none) (some 1) (some 5) SystemButtonType.Close 2
        = (fun _ => none : HelperHash) 2
    ∧ setHitTestVisible (fun _ => none) (some 1) (some 5) 2 = (fun _ => none : HelperHash) 2
    ∧ attachToWindow (fun _ => none) (some 1) 2 = (fun _ => none : HelperHash) 2 :=
  helperHash_frame (fun _ => none) 1 2 5 SystemButtonType.Close (by decide)

/-- Claim C4: every public operation guards its null inputs — a null window,
null widget argument or null out-pointer makes the operation leave all state
unchanged and return a neutral default (false, the empty rectangle, no
signal, no external call). -/
theorem nullGuard_spec :
    ∀ (env : WidgetEnv) (hash : HelperHash) (data : WidgetsHelperData) (pos : QPoint)
      (wg : WidgetRef) (bt : SystemButtonType) (edges : QtEdges) (v : Bool) (id : WId),
      isWindowFixedSizeOp none = false
      ∧ setWindowFixedSizeOp none v = none
      ∧ setTitleBarWidget hash none (some wg) = (hash, false)
      ∧ setTitleBarWidget hash (some id) none = (hash, false)
      ∧ setHitTestVisible hash none (some wg) = hash
      ∧ setHitTestVisible hash (some id) none = hash
      ∧ setSystemButton hash none (some wg) bt = hash
      ∧ setSystemButton hash (some id) none bt = hash
      ∧ setSystemButton hash (some id) (some wg) SystemButtonType.Unknown = hash
      ∧ moveWindowToDesktopCenter none = none
      ∧ bringWindowToFront none = none
      ∧ showSystemMenu none pos = none
      ∧ windowStartSystemMove2 none pos = none
      ∧ windowStartSystemResize2 none edges pos = none
      ∧ isInSystemButtons env data pos none = (false, none)
      ∧ mapWidgetGeometryToScene env (some id) none = default
      ∧ mapWidgetGeometryToScene env none (some wg) = default := by
  intro env hash data pos wg bt edges v id
  refine ⟨rfl, rfl, rfl, rfl, rfl, rfl, ?_, rfl, ?_, rfl, rfl, rfl, rfl, rfl, rfl, rfl, rfl⟩
  · by_cases hbt : bt = SystemButtonType.Unknown
    · simp [setSystemButton, hbt]
    · simp [setSystemButton, hbt]
  · simp [setSystemButton]
